import Mathlib

/-!
Verification of the client-side form validation and submission workflow of
`src/js/forms.js` (SauroSoftware marketing site).

The JavaScript is shallowly embedded: string values are Lean `String`s
(inspected through their character list `String.data`), DOM side effects are
explicit state passing (the list of `.field-error` nodes attached to a field's
parent, the list of notification elements and pending timers attached to the
document), and the asynchronous transmission step is a parameter recording
whether the awaited promise resolves or rejects.
-/

namespace Forms

/-! ## FieldValidator: validateEmail and validatePhone (forms.js lines 3-13) -/

/-- Character class `[^\s@]` of the e-mail regular expression: any character
that is neither whitespace nor `@`. -/
def emailChar (c : Char) : Bool := !c.isWhitespace && !(c == '@')

/-- Embedding of `validateEmail` (forms.js lines 4-7):

    const re = /^[^\s@]+@[^\s@]+\.[^\s@]+$/;
    return re.test(email);

The anchored regular expression matches `s` iff `s = a ++ "@" ++ b ++ "." ++ c`
for nonempty `a b c` drawn from `[^\s@]` (note `.` itself lies in `[^\s@]`, so
`b` and `c` may contain further dots).  Because `a`, `b`, `c` exclude `@`, a
matching string contains exactly one `@`, so the decomposition splits at the
first `@` of `s`: the part before it is nonempty and whitespace-free, and the
part after it is nonempty, drawn from `[^\s@]`, and contains a `.` that is
neither its first nor its last character (so that `b` and `c` are nonempty);
equivalently, `.` occurs among the characters obtained by dropping the first
and last character of the part after the `@`. -/
def validateEmail (s : String) : Bool :=
  match s.data.dropWhile (fun c => !(c == '@')) with
  | [] => false
  | _ :: dom =>
      let locPart := s.data.takeWhile (fun c => !(c == '@'))
      !locPart.isEmpty && locPart.all (fun c => !c.isWhitespace) &&
      (!dom.isEmpty && dom.all emailChar) &&
      ((dom.drop 1).dropLast).contains '.'

/-- Character class `[\d\s\+\-\(\)]` of the phone regular expression. -/
def phoneChar (c : Char) : Bool :=
  c.isDigit || c.isWhitespace || c == '+' || c == '-' || c == '(' || c == ')'

/-- Embedding of `validatePhone` (forms.js lines 10-13):

    const re = /^[\d\s\+\-\(\)]+$/;
    return re.test(phone) && phone.replace(/\D/g, '').length >= 7;

The anchored regex matches iff the string is a nonempty sequence of characters
from `[\d\s\+\-\(\)]`; `phone.replace(/\D/g, '')` keeps exactly the digit
characters. -/
def validatePhone (s : String) : Bool :=
  (!s.data.isEmpty && s.data.all phoneChar) &&
  decide (7 ≤ (s.data.filter Char.isDigit).length)

/-! ### Helper lemmas about the split of a string at its unique `@` -/

/-- The element at which dropWhile stopped falsifies the predicate. -/
theorem dropWhile_cons_head_false {α : Type} {p : α → Bool} :
    ∀ {l : List α} {x : α} {xs : List α}, l.dropWhile p = x :: xs → p x = false := by
  intro l
  induction l with
  | nil => intro x xs h; simp [List.dropWhile] at h
  | cons a t ih =>
      intro x xs h
      by_cases hp : p a
      · rw [List.dropWhile_cons_of_pos hp] at h
        exact ih h
      · rw [List.dropWhile_cons_of_neg hp] at h
        cases h
        exact Bool.eq_false_iff.mpr hp

/-- A list with a unique distinguished element splits around it in only one
way: if `x` occurs in neither `a` nor `b`, then any decomposition of
`a ++ x :: b` as `u ++ x :: v` has `u = a` and `v = b`. -/
theorem append_cons_eq_of_not_mem {α : Type} {x : α} :
    ∀ (a : List α) {b : List α} (u : List α) {v : List α},
      x ∉ a → x ∉ b → a ++ x :: b = u ++ x :: v → u = a ∧ v = b := by
  intro a
  induction a with
  | nil =>
      intro b u v _ hb h
      cases u with
      | nil => simpa using h.symm
      | cons y u' =>
          simp only [List.nil_append, List.cons_append, List.cons.injEq] at h
          exact absurd (h.2 ▸ List.mem_append_right u' (List.mem_cons_self x v)) hb
  | cons w a' ih =>
      intro b u v ha hb h
      have hxw : x ≠ w := fun hxw => ha (hxw ▸ List.mem_cons_self w a')
      have ha' : x ∉ a' := fun hx => ha (List.mem_cons_of_mem w hx)
      cases u with
      | nil =>
          simp only [List.nil_append, List.cons_append, List.cons.injEq] at h
          exact absurd h.1.symm hxw
      | cons y u' =>
          simp only [List.cons_append, List.cons.injEq] at h
          obtain ⟨rfl, h2⟩ := h
          obtain ⟨hu, hv⟩ := ih u' ha' hb h2
          exact ⟨by rw [hu], hv⟩

/-- If a string matches the e-mail pattern then every character after any `@`
occurrence includes a `.`; stated on the character-list decomposition. -/
theorem validateEmail_dot_after_at (u v : List Char) (hv : '.' ∉ v) :
    validateEmail (String.mk (u ++ '@' :: v)) = false := by
  by_contra h
  have htrue : validateEmail (String.mk (u ++ '@' :: v)) = true := by
    cases hb : validateEmail (String.mk (u ++ '@' :: v)) with
    | false => exact absurd hb h
    | true => rfl
  set cs : List Char := u ++ '@' :: v with hcs
  have hdata : (String.mk (u ++ '@' :: v)).data = cs := rfl
  -- the drop at the first `@` is nonempty
  have hat : '@' ∈ cs := List.mem_append_right u (List.mem_cons_self '@' v)
  have hne : cs.dropWhile (fun c => !(c == '@')) ≠ [] := by
    intro hnil
    have := List.dropWhile_eq_nil_iff.mp hnil '@' hat
    simp at this
  rw [validateEmail] at htrue
  rcases hd : cs.dropWhile (fun c => !(c == '@')) with _ | ⟨h0, dom⟩
  · exact hne hd
  rw [hdata, hd] at htrue
  simp only [Bool.and_eq_true, List.all_eq_true, decide_eq_true_eq] at htrue
  obtain ⟨⟨⟨hloc, hlocws⟩, hdomne, hdomall⟩, hdot⟩ := htrue
  -- the head where dropWhile stopped is the `@`
  have hh0 : h0 = '@' := by
    have := dropWhile_cons_head_false hd
    simpa using this
  subst hh0
  -- reassemble the string around its unique `@`
  have hsplit : cs.takeWhile (fun c => !(c == '@')) ++ '@' :: dom = cs := by
    rw [← hd]
    exact List.takeWhile_append_dropWhile (fun c => !(c == '@')) cs
  have htknomem : '@' ∉ cs.takeWhile (fun c => !(c == '@')) := by
    intro hmem
    have := List.mem_takeWhile_imp hmem
    simp at this
  have hdomnomem : '@' ∉ dom := by
    intro hmem
    have := hdomall '@' hmem
    simp [emailChar] at this
  obtain ⟨hu, hvdom⟩ :=
    append_cons_eq_of_not_mem (cs.takeWhile (fun c => !(c == '@'))) u
      htknomem hdomnomem (hsplit.trans hcs)
  -- but the match requires a dot strictly inside `dom = v`
  have hdotdom : '.' ∈ dom := by
    have hdot' : '.' ∈ (dom.drop 1).dropLast := by simpa using hdot
    have h1 : '.' ∈ dom.drop 1 := (List.dropLast_sublist (dom.drop 1)).mem hdot'
    exact (List.drop_sublist 1 dom).mem h1
  exact hv (hvdom ▸ hdotdom)

/-- C3: validateEmail rejects every string without an `@`, rejects every
string that has an `@` with no `.` anywhere after it, and accepts
`"a@b.co"`. -/
theorem validateEmail_spec :
    (∀ s : String, '@' ∉ s.data → validateEmail s = false) ∧
    (∀ u v : List Char, '.' ∉ v → validateEmail (String.mk (u ++ '@' :: v)) = false) ∧
    validateEmail "a@b.co" = true := by
  refine ⟨?_, validateEmail_dot_after_at, by decide⟩
  intro s h
  have hnil : s.data.dropWhile (fun c => !(c == '@')) = [] := by
    rw [List.dropWhile_eq_nil_iff]
    intro x hx
    simp only [Bool.not_eq_true']
    exact decide_eq_false (fun heq : x = '@' => h (heq ▸ hx))
  rw [validateEmail, hnil]

/-- Witness for C3: the hypotheses are satisfiable; a concrete string with no
`@` and a concrete string with an `@` but no `.` after it are both rejected. -/
theorem validateEmail_spec_witness :
    validateEmail "plainaddress" = false ∧ validateEmail "x.y@zco" = false := by
  constructor
  · exact validateEmail_spec.1 "plainaddress" (by decide)
  · exact validateEmail_spec.2.1 ['x', '.', 'y'] ['z', 'c', 'o'] (by decide)

/-- C4: validatePhone rejects every string with fewer than 7 digit characters,
accepts the concrete phone number "+1 (555) 123-4567", and accepts only
nonempty strings made solely of digits, whitespace, and the characters
`+`, `-`, `(`, `)`. -/
theorem validatePhone_spec :
    (∀ s : String, (s.data.filter Char.isDigit).length < 7 → validatePhone s = false) ∧
    validatePhone "+1 (555) 123-4567" = true ∧
    (∀ s : String, validatePhone s = true →
      s.data ≠ [] ∧ ∀ c ∈ s.data, phoneChar c = true) := by
  refine ⟨?_, by decide, ?_⟩
  · intro s h
    have : decide (7 ≤ (s.data.filter Char.isDigit).length) = false := by
      simpa using Nat.not_le_of_lt h
    simp [validatePhone, this]
  · intro s h
    rw [validatePhone] at h
    simp only [Bool.and_eq_true, Bool.not_eq_true', List.isEmpty_eq_false,
      List.all_eq_true, decide_eq_true_eq] at h
    exact ⟨h.1.1, h.1.2⟩

/-- Witness for C4: a concrete short string is rejected, and the accepted
example is indeed nonempty and drawn from the phone character class. -/
theorem validatePhone_spec_witness :
    validatePhone "123" = false ∧
    ("+1 (555) 123-4567" : String).data ≠ [] := by
  constructor
  · exact validatePhone_spec.1 "123" (by decide)
  · exact (validatePhone_spec.2.2 "+1 (555) 123-4567" validatePhone_spec.2.1).1

/-! ## Field model and validateField (forms.js lines 37-106) -/

/-- Value of a hexadecimal digit character (total; callers guard with
`isHexDigitChar`). -/
def hexDigitVal (c : Char) : Nat :=
  if c.isDigit then c.toNat - 48
  else if 'a' ≤ c && c ≤ 'f' then c.toNat - 87
  else if 'A' ≤ c && c ≤ 'F' then c.toNat - 55
  else 0

/-- Hexadecimal digit test for the `0x` branch of `parseInt`. -/
def isHexDigitChar (c : Char) : Bool :=
  c.isDigit || ('a' ≤ c && c ≤ 'f') || ('A' ≤ c && c ≤ 'F')

/-- Embedding of the JavaScript builtin `parseInt(str)` as used at forms.js
line 64: leading whitespace is skipped, an optional sign is read, a `0x`/`0X`
prefix switches to base 16, the longest leading run of digits is converted,
and the result is `NaN` (modelled as `none`) when that run is empty. -/
def parseIntJS (s : String) : Option Int :=
  let cs := s.data.dropWhile Char.isWhitespace
  let signAndRest : Bool × List Char :=
    match cs with
    | '-' :: t => (true, t)
    | '+' :: t => (false, t)
    | _ => (false, cs)
  let digitsAndBase : List Char × Nat :=
    match signAndRest.2 with
    | '0' :: c :: t =>
        if c == 'x' || c == 'X' then (t.takeWhile isHexDigitChar, 16)
        else (signAndRest.2.takeWhile Char.isDigit, 10)
    | _ => (signAndRest.2.takeWhile Char.isDigit, 10)
  if digitsAndBase.1.isEmpty then none
  else
    let mag : Nat := digitsAndBase.1.foldl (fun a c => digitsAndBase.2 * a + hexDigitVal c) 0
    some (if signAndRest.1 then -(mag : Int) else (mag : Int))

/-- JavaScript `String.prototype.trim` (forms.js line 38): strip leading and
trailing whitespace. -/
def jsTrim (s : String) : String :=
  String.mk (((s.data.dropWhile Char.isWhitespace).reverse.dropWhile Char.isWhitespace).reverse)

/-- A form field as validateField sees it: its current string value and the
declarative constraint attributes read from the element (`required`,
`type`, `minlength`), plus the data needed by the submission handler (`name`
for FormData collection, `defaultValue` as the value restored by
`form.reset()`). -/
structure Field where
  name : String
  value : String
  required : Bool
  type : String
  minlength : Option String
  defaultValue : String
deriving DecidableEq, Repr

/-- Message shown by the failing required check (forms.js line 46). -/
def msgRequired : String := "Este campo es obligatorio"

/-- Message shown by the failing email check (forms.js line 52). -/
def msgEmail : String := "Por favor ingresa un email válido"

/-- Message shown by the failing phone check (forms.js line 58). -/
def msgPhone : String := "Por favor ingresa un teléfono válido"

/-- Message of the failing min-length check (forms.js line 66), a template
literal interpolating the parsed minLength. -/
def minLenMsg (n : Int) : String := "Mínimo " ++ toString n ++ " caracteres requeridos"

/-- Embedding of `clearFieldError` (forms.js lines 100-106) acting on the list
of `.field-error` nodes under the field's parent element:
`querySelector('.field-error')` finds the first such node and `.remove()`
deletes it (the border-color style write carries no information we track). -/
def clearFieldError (errs : List String) : List String :=
  match errs with
  | [] => []
  | _ :: rest => rest

/-- Embedding of `showFieldError` (forms.js lines 75-97): remove the first
existing `.field-error` node if any, then append a new node carrying
`message`. -/
def showFieldError (errs : List String) (message : String) : List String :=
  (match errs with
   | [] => ([] : List String)
   | _ :: rest => rest) ++ [message]

/-- Embedding of `validateField` (forms.js lines 37-72).  `errs` is the list
of `.field-error` nodes currently attached to the field's parent; the result
pairs the returned boolean with the node list after the call.  The four
checks run in source order and the function returns at the first failure.
The min-length branch mirrors `parseInt` returning `NaN` (comparison with
`NaN` is false, so the check passes) and the JavaScript comparison
`value.length < minLength` over possibly negative parsed values. -/
def validateField (f : Field) (errs : List String) : Bool × List String :=
  let value := jsTrim f.value
  let errs0 := clearFieldError errs
  if f.required && value == "" then
    (false, showFieldError errs0 msgRequired)
  else if f.type == "email" && !(value == "") && !validateEmail value then
    (false, showFieldError errs0 msgEmail)
  else if f.type == "tel" && !(value == "") && !validatePhone value then
    (false, showFieldError errs0 msgPhone)
  else
    match f.minlength with
    | some attr =>
        match parseIntJS attr with
        | some n =>
            if (((jsTrim f.value).length : Int) < n) then
              (false, showFieldError errs0 (minLenMsg n))
            else (true, errs0)
        | none => (true, errs0)
    | none => (true, errs0)

/-! ### Independent per-check predicates, for stating evaluation order -/

/-- Required check in isolation (forms.js line 45). -/
def requiredFails (f : Field) : Bool := f.required && jsTrim f.value == ""

/-- Email check in isolation (forms.js line 51). -/
def emailFails (f : Field) : Bool :=
  f.type == "email" && !(jsTrim f.value == "") && !validateEmail (jsTrim f.value)

/-- Phone check in isolation (forms.js line 57). -/
def phoneFails (f : Field) : Bool :=
  f.type == "tel" && !(jsTrim f.value == "") && !validatePhone (jsTrim f.value)

/-- Parsed minlength constraint of a field, `none` when the attribute is
missing or parses to NaN. -/
def parsedMinLen (f : Field) : Option Int := f.minlength.bind parseIntJS

/-- Min-length check in isolation (forms.js lines 63-69). -/
def minLenFails (f : Field) : Bool :=
  match parsedMinLen f with
  | some n => decide (((jsTrim f.value).length : Int) < n)
  | none => false

/-- First failing check's message, with the checks taken in the source order
required, email, phone, min-length. -/
def firstFailMsg (f : Field) : Option String :=
  if requiredFails f then some msgRequired
  else if emailFails f then some msgEmail
  else if phoneFails f then some msgPhone
  else
    match parsedMinLen f with
    | some n =>
        if (((jsTrim f.value).length : Int) < n) then some (minLenMsg n) else none
    | none => none

/-- C5: validateField evaluates required, email, phone, min-length in that
fixed order and short-circuits: it returns true exactly when no check fails,
and when some check fails the field ends up carrying exactly the first
failing check's message as its single error node; in particular after any
single call the field carries at most one error node. -/
theorem validateField_order (f : Field) (errs : List String) (h : errs.length ≤ 1) :
    (validateField f errs).1
      = (!requiredFails f && !emailFails f && !phoneFails f && !minLenFails f) ∧
    (validateField f errs).2 = (firstFailMsg f).toList ∧
    ((validateField f errs).2).length ≤ 1 := by
  have herrs0 : clearFieldError errs = [] := by
    match errs, h with
    | [], _ => rfl
    | [a], _ => rfl
  have hshow : ∀ m : String, showFieldError [] m = [m] := fun _ => rfl
  refine ?_
  rw [validateField, firstFailMsg, requiredFails, emailFails, phoneFails, minLenFails,
    parsedMinLen]
  by_cases h1 : f.required && jsTrim f.value == ""
  · simp [h1, hshow, herrs0]
  · rw [if_neg h1, if_neg h1]
    by_cases h2 : f.type == "email" && !(jsTrim f.value == "") && !validateEmail (jsTrim f.value)
    · simp [h1, h2, hshow, herrs0]
    · rw [if_neg h2, if_neg h2]
      by_cases h3 : f.type == "tel" && !(jsTrim f.value == "") && !validatePhone (jsTrim f.value)
      · simp [h1, h2, h3, hshow, herrs0]
      · rw [if_neg h3, if_neg h3]
        rcases hml : f.minlength with _ | attr
        · simp [hml, h1, h2, h3, herrs0, Option.bind]
        · rcases hpi : parseIntJS attr with _ | n
          · simp [hml, hpi, h1, h2, h3, herrs0, Option.bind]
          · by_cases h4 : (((jsTrim f.value).length : Int) < n)
            · simp [hml, hpi, h1, h2, h3, h4, hshow, herrs0, Option.bind]
            · simp [hml, hpi, h1, h2, h3, h4, herrs0, Option.bind]

/-- Witness for C5 at a concrete field: a required empty email field fails
with the required message only. -/
theorem validateField_order_witness :
    (validateField
        { name := "email", value := "", required := true, type := "email",
          minlength := some "5", defaultValue := "" } ["old"]).2
      = [msgRequired] := by
  have h := validateField_order
    { name := "email", value := "", required := true, type := "email",
      minlength := some "5", defaultValue := "" } ["old"] (by decide)
  rw [h.2.1]
  decide

/-- C7: validateField is a total function of the field and its constraint (the
embedding returns a value for every input, mirroring that the JavaScript
throws no exception), and a malformed minlength constraint — one whose
parseInt is NaN, or parses to a negative number — behaves exactly as if the
minlength attribute were absent, so the min-length check cannot fail. -/
theorem validateField_malformed_minlength (f : Field) (errs : List String) (attr : String)
    (hattr : f.minlength = some attr)
    (hbad : parseIntJS attr = none ∨ ∃ n : Int, parseIntJS attr = some n ∧ n < 0) :
    validateField f errs = validateField { f with minlength := none } errs := by
  rw [validateField, validateField]
  rcases hbad with hnan | ⟨n, hn, hneg⟩
  · simp only [hattr, hnan]
  · simp only [hattr, hn]
    have hnotlt : ¬ (((jsTrim f.value).length : Int) < n) := by
      intro hlt
      have h0 : (0 : Int) ≤ ((jsTrim f.value).length : Int) := Int.ofNat_nonneg _
      omega
    simp only [if_neg hnotlt]

/-- Witness for C7: a field whose minlength attribute is the non-numeric
string "abc" validates exactly as the same field with no minlength
attribute. -/
theorem validateField_malformed_minlength_witness :
    validateField
        { name := "x", value := "ab", required := false, type := "text",
          minlength := some "abc", defaultValue := "" } []
      = validateField
        { name := "x", value := "ab", required := false, type := "text",
          minlength := none, defaultValue := "" } [] :=
  validateField_malformed_minlength
    { name := "x", value := "ab", required := false, type := "text",
      minlength := some "abc", defaultValue := "" } [] "abc" rfl (Or.inl rfl)

/-! ## SubmissionController: handleFormSubmission (forms.js lines 111-176) -/

/-- Outcome of the awaited transmission step inside the try block: the promise
either resolves (the try body continues) or rejects (control jumps to the
catch block). -/
inductive TransOutcome where
  | ok : TransOutcome
  | err : TransOutcome
deriving DecidableEq, Repr

/-- The transmission step of the shipped code (forms.js line 145),
`await new Promise(resolve => setTimeout(resolve, 2000))`: a fixed 2-second
delay whose promise is always resolved and never rejected. -/
def shippedTransmission : TransOutcome := TransOutcome.ok

/-- Busy label written into the submit control while transmitting
(forms.js line 140). -/
def busyLabel : String := "<i class=\"fas fa-spinner fa-spin\"></i> Enviando..."

/-- Aggregate validation-failure message (forms.js line 129). -/
def msgFormErrors : String := "Por favor corrige los errores en el formulario"

/-- Default success message (forms.js line 157). -/
def msgSuccess : String := "¡Formulario enviado exitosamente!"

/-- Transmission-failure message of the catch block (forms.js line 169). -/
def msgSubmitError : String := "Hubo un error al enviar el formulario. Por favor intenta nuevamente."

/-- Insert a name/value pair as a JavaScript object property: an existing key
keeps its position and takes the new value, a new key is appended. -/
def upsertEntry (acc : List (String × String)) (p : String × String) : List (String × String) :=
  if acc.any (fun q => q.1 == p.1) then
    acc.map (fun q => if q.1 == p.1 then (q.1, p.2) else q)
  else acc ++ [p]

/-- Embedding of `Object.fromEntries(formData.entries())` (forms.js
lines 134-135): later entries with the same name overwrite earlier ones. -/
def fromEntries (l : List (String × String)) : List (String × String) :=
  l.foldl upsertEntry []

/-- Observable effects of one run of the submit-event handler: number of
transmission invocations, the notifications raised (message, type) in order,
the submit control's final disabled flag and label, the form's fields after
the run, and the argument passed to the onSuccess callback if it was
invoked. -/
structure SubmitEffects where
  transmissions : Nat
  notifs : List (String × String)
  btnDisabled : Bool
  btnLabel : String
  fieldsAfter : List Field
  onSuccessData : Option (List (String × String))
deriving DecidableEq, Repr

/-- Embedding of the submit-event handler installed by `handleFormSubmission`
(forms.js lines 115-175).  `fields` are the form's inputs, `btnLabel0` the
submit control's original innerHTML, `successMessage` and `hasOnSuccess` the
closure arguments of `handleFormSubmission`, and `outcome` whether the
awaited transmission step resolves or rejects.  Control flow mirrors the
source: validate every field (the forEach visits all of them), on aggregate
failure notify once and return; otherwise collect the form data, enter the
busy state, transmit once, branch into the success body or the catch block,
and in the finally block restore the submit control. -/
def handleFormSubmission (fields : List Field) (btnLabel0 : String)
    (successMessage : Option String) (hasOnSuccess : Bool)
    (outcome : TransOutcome) : SubmitEffects :=
  let isValid := fields.all (fun f => (validateField f []).1)
  if !isValid then
    { transmissions := 0
      notifs := [(msgFormErrors, "error")]
      btnDisabled := false
      btnLabel := btnLabel0
      fieldsAfter := fields
      onSuccessData := none }
  else
    let data := fromEntries (fields.map (fun f => (f.name, f.value)))
    -- lines 139-141: busy state on the submit control
    let btnBusy : Bool × String := (true, busyLabel)
    -- lines 143-169: try body (one transmission, then success effects) or catch
    let afterTry : SubmitEffects :=
      match outcome with
      | TransOutcome.ok =>
          { transmissions := 1
            notifs := [(successMessage.getD msgSuccess, "success")]
            btnDisabled := btnBusy.1
            btnLabel := btnBusy.2
            fieldsAfter := fields.map (fun f => { f with value := f.defaultValue })
            onSuccessData := if hasOnSuccess then some data else none }
      | TransOutcome.err =>
          { transmissions := 1
            notifs := [(msgSubmitError, "error")]
            btnDisabled := btnBusy.1
            btnLabel := btnBusy.2
            fieldsAfter := fields
            onSuccessData := none }
    -- lines 170-174: finally block, runs on both branches
    { afterTry with btnDisabled := false, btnLabel := btnLabel0 }

/-- C1: when every field validates, the handler performs exactly one
transmission; when some field fails validation, it performs none, raises
exactly the single aggregate error notification, and returns. -/
theorem handleFormSubmission_validation_gate (fields : List Field) (btnLabel0 : String)
    (successMessage : Option String) (hasOnSuccess : Bool) (outcome : TransOutcome) :
    ((∀ f ∈ fields, (validateField f []).1 = true) →
      (handleFormSubmission fields btnLabel0 successMessage hasOnSuccess outcome).transmissions
        = 1) ∧
    ((∃ f ∈ fields, (validateField f []).1 = false) →
      (handleFormSubmission fields btnLabel0 successMessage hasOnSuccess outcome).transmissions
          = 0 ∧
        (handleFormSubmission fields btnLabel0 successMessage hasOnSuccess outcome).notifs
          = [(msgFormErrors, "error")]) := by
  constructor
  · intro h
    have hall : fields.all (fun f => (validateField f []).1) = true :=
      List.all_eq_true.mpr h
    cases outcome <;> simp [handleFormSubmission, hall]
  · intro h
    have hall : fields.all (fun f => (validateField f []).1) = false := by
      rw [List.all_eq_false]
      obtain ⟨f, hf, hv⟩ := h
      exact ⟨f, hf, by simp [hv]⟩
    cases outcome <;> simp [handleFormSubmission, hall]

/-- Witness for C1 on concrete forms: a valid one-field form transmits once;
a form with a failing required field transmits zero times and raises the
aggregate notification. -/
theorem handleFormSubmission_validation_gate_witness :
    (handleFormSubmission
        [{ name := "email", value := "a@b.co", required := true, type := "email",
           minlength := none, defaultValue := "" }]
        "Enviar" none false TransOutcome.ok).transmissions = 1 ∧
    (handleFormSubmission
        [{ name := "email", value := "", required := true, type := "email",
           minlength := none, defaultValue := "" }]
        "Enviar" none false TransOutcome.ok).transmissions = 0 := by
  constructor
  · exact (handleFormSubmission_validation_gate
      [{ name := "email", value := "a@b.co", required := true, type := "email",
         minlength := none, defaultValue := "" }]
      "Enviar" none false TransOutcome.ok).1 (by decide)
  · exact ((handleFormSubmission_validation_gate
      [{ name := "email", value := "", required := true, type := "email",
         minlength := none, defaultValue := "" }]
      "Enviar" none false TransOutcome.ok).2 (by decide)).1

/-- C2: every submission that reaches the transmitting state ends with the
submit control re-enabled and its original label restored, whether the
transmission step resolves or rejects; the control is never left disabled. -/
theorem handleFormSubmission_button_restored (fields : List Field) (btnLabel0 : String)
    (successMessage : Option String) (hasOnSuccess : Bool) (outcome : TransOutcome)
    (hvalid : ∀ f ∈ fields, (validateField f []).1 = true) :
    (handleFormSubmission fields btnLabel0 successMessage hasOnSuccess outcome).btnDisabled
        = false ∧
    (handleFormSubmission fields btnLabel0 successMessage hasOnSuccess outcome).btnLabel
        = btnLabel0 := by
  have hall : fields.all (fun f => (validateField f []).1) = true :=
    List.all_eq_true.mpr hvalid
  cases outcome <;> simp [handleFormSubmission, hall]

/-- Witness for C2 with a rejecting transmission step: the control still ends
re-enabled with its original label. -/
theorem handleFormSubmission_button_restored_witness :
    (handleFormSubmission
        [{ name := "email", value := "a@b.co", required := true, type := "email",
           minlength := none, defaultValue := "" }]
        "Enviar" none false TransOutcome.err).btnDisabled = false ∧
    (handleFormSubmission
        [{ name := "email", value := "a@b.co", required := true, type := "email",
           minlength := none, defaultValue := "" }]
        "Enviar" none false TransOutcome.err).btnLabel = "Enviar" :=
  handleFormSubmission_button_restored
    [{ name := "email", value := "a@b.co", required := true, type := "email",
       minlength := none, defaultValue := "" }]
    "Enviar" none false TransOutcome.err (by decide)

/-- C6: when the transmission step succeeds, the handler raises exactly the
success notification (the caller-supplied message, or the default when none
was supplied), resets every field to its default value, and, when an
onSuccess callback was supplied, invokes it with the collected name-to-value
mapping. -/
theorem handleFormSubmission_success_path (fields : List Field) (btnLabel0 : String)
    (successMessage : Option String) (hasOnSuccess : Bool)
    (hvalid : ∀ f ∈ fields, (validateField f []).1 = true) :
    (handleFormSubmission fields btnLabel0 successMessage hasOnSuccess TransOutcome.ok).notifs
        = [(successMessage.getD msgSuccess, "success")] ∧
    (handleFormSubmission fields btnLabel0 successMessage hasOnSuccess
        TransOutcome.ok).fieldsAfter
        = fields.map (fun f => { f with value := f.defaultValue }) ∧
    (∀ g ∈ (handleFormSubmission fields btnLabel0 successMessage hasOnSuccess
        TransOutcome.ok).fieldsAfter, g.value = g.defaultValue) ∧
    (hasOnSuccess = true →
      (handleFormSubmission fields btnLabel0 successMessage hasOnSuccess
          TransOutcome.ok).onSuccessData
        = some (fromEntries (fields.map (fun f => (f.name, f.value))))) := by
  have hall : fields.all (fun f => (validateField f []).1) = true :=
    List.all_eq_true.mpr hvalid
  refine ⟨by simp [handleFormSubmission, hall], by simp [handleFormSubmission, hall], ?_, ?_⟩
  · intro g hg
    simp only [handleFormSubmission, hall] at hg
    simp only [Bool.not_true, Bool.false_eq_true, if_false, List.mem_map] at hg
    obtain ⟨f, _, rfl⟩ := hg
    rfl
  · intro hcb
    simp [handleFormSubmission, hall, hcb]

/-- Witness for C6: a concrete valid submission with an onSuccess callback
gets the default success notification and the collected data. -/
theorem handleFormSubmission_success_path_witness :
    (handleFormSubmission
        [{ name := "email", value := "a@b.co", required := true, type := "email",
           minlength := none, defaultValue := "" }]
        "Enviar" none true TransOutcome.ok).notifs = [(msgSuccess, "success")] := by
  have h := handleFormSubmission_success_path
    [{ name := "email", value := "a@b.co", required := true, type := "email",
       minlength := none, defaultValue := "" }]
    "Enviar" none true (by decide)
  exact h.1

/-- C10: with the shipped transmission step (a delay promise that always
resolves) the catch block is unreachable: no run of the handler ever raises
the transmission-failure notification, and every run that passes validation
ends on the success path (one transmission, the success notification, the
form reset, the callback when supplied). -/
theorem handleFormSubmission_catch_unreachable (fields : List Field) (btnLabel0 : String)
    (successMessage : Option String) (hasOnSuccess : Bool) :
    (msgSubmitError, "error")
        ∉ (handleFormSubmission fields btnLabel0 successMessage hasOnSuccess
            shippedTransmission).notifs ∧
    ((∀ f ∈ fields, (validateField f []).1 = true) →
      (handleFormSubmission fields btnLabel0 successMessage hasOnSuccess
          shippedTransmission).transmissions = 1 ∧
      (handleFormSubmission fields btnLabel0 successMessage hasOnSuccess
          shippedTransmission).notifs = [(successMessage.getD msgSuccess, "success")] ∧
      (handleFormSubmission fields btnLabel0 successMessage hasOnSuccess
          shippedTransmission).fieldsAfter
          = fields.map (fun f => { f with value := f.defaultValue }) ∧
      (hasOnSuccess = true →
        (handleFormSubmission fields btnLabel0 successMessage hasOnSuccess
            shippedTransmission).onSuccessData
          = some (fromEntries (fields.map (fun f => (f.name, f.value)))))) := by
  constructor
  · rcases hall : fields.all (fun f => (validateField f []).1) with _ | _
    · intro hmem
      simp only [handleFormSubmission, shippedTransmission, hall] at hmem
      simp only [Bool.not_false, if_true, List.mem_singleton, Prod.mk.injEq] at hmem
      have : msgSubmitError ≠ msgFormErrors := by decide
      exact this hmem.1
    · intro hmem
      simp only [handleFormSubmission, shippedTransmission, hall] at hmem
      simp only [Bool.not_true, Bool.false_eq_true, if_false, List.mem_singleton,
        Prod.mk.injEq] at hmem
      have : ("error" : String) ≠ "success" := by decide
      exact this hmem.2
  · intro hvalid
    have hall : fields.all (fun f => (validateField f []).1) = true :=
      List.all_eq_true.mpr hvalid
    refine ⟨by simp [handleFormSubmission, shippedTransmission, hall],
      by simp [handleFormSubmission, shippedTransmission, hall],
      by simp [handleFormSubmission, shippedTransmission, hall], ?_⟩
    intro hcb
    simp [handleFormSubmission, shippedTransmission, hall, hcb]

/-- Witness for C10: the concrete valid submission of the C1 witness raises no
transmission-failure notification and ends on the success path. -/
theorem handleFormSubmission_catch_unreachable_witness :
    (handleFormSubmission
        [{ name := "email", value := "a@b.co", required := true, type := "email",
           minlength := none, defaultValue := "" }]
        "Enviar" none false shippedTransmission).transmissions = 1 :=
  ((handleFormSubmission_catch_unreachable
      [{ name := "email", value := "a@b.co", required := true, type := "email",
         minlength := none, defaultValue := "" }]
      "Enviar" none false).2 (by decide)).1

/-! ## NotificationCenter: showNotification (forms.js lines 180-257 and 515-552)

The source ships two versions of `showNotification`: the form-feedback one
(class `form-notification`, 5000 ms auto-dismiss, with a close control and a
`parentElement` guard in its timer callback) and the page-feedback one (class
`notification`, 3000 ms auto-dismiss, no guard).  Both follow the same shape:
remove the first element matching their class selector, append a fresh
element, and schedule an auto-dismiss timer for that element.  The embedding
is parametric in the class and delay; the element identity captured by each
timer closure is modelled with a fresh numeric id. -/

/-- A notification element in the document: its identity, its class list
(base class plus severity), and its message. -/
structure NotifElem where
  id : Nat
  classes : List String
  message : String
deriving DecidableEq, Repr

/-- Document state relevant to notifications: the notification elements in
document order, the pending auto-dismiss timers as pairs of target element id
and delay in milliseconds, and the next fresh element id. -/
structure NotifState where
  dom : List NotifElem
  timers : List (Nat × Nat)
  nextId : Nat
deriving DecidableEq, Repr

/-- Document state of a freshly loaded page: no notifications, no timers. -/
def notifInit : NotifState := { dom := [], timers := [], nextId := 0 }

/-- Class-selector match: `document.querySelector('.cls')` matches an element
whose class list contains `cls`. -/
def selMatch (cls : String) (e : NotifElem) : Bool := e.classes.contains cls

/-- Remove the first element matching the class selector, as
`document.querySelector(sel)` followed by `.remove()` does; no element is
removed when none matches. -/
def removeFirstMatch (cls : String) : List NotifElem → List NotifElem
  | [] => []
  | e :: rest => if selMatch cls e then rest else e :: removeFirstMatch cls rest

/-- Embedding of one `showNotification(message, type)` call, parametric in the
base class and auto-dismiss delay of the two source versions: remove the
existing notification if any (forms.js lines 182-185 and 517-520), append a
fresh element with classes base and type carrying the message (lines 187-227
and 522-546), and schedule its auto-dismiss timer (lines 251-256 and
548-551).  No previously pending timer is touched. -/
def showNotificationStep (base : String) (delay : Nat) (message ty : String)
    (st : NotifState) : NotifState :=
  { dom := removeFirstMatch base st.dom ++ [{ id := st.nextId, classes := [base, ty], message := message }]
    timers := st.timers ++ [(st.nextId, delay)]
    nextId := st.nextId + 1 }

/-- The form-feedback `showNotification` (forms.js lines 180-257). -/
def showNotificationForm (message ty : String) : NotifState → NotifState :=
  showNotificationStep "form-notification" 5000 message ty

/-- The page-feedback `showNotification` (forms.js lines 515-552). -/
def showNotificationPage (message ty : String) : NotifState → NotifState :=
  showNotificationStep "notification" 3000 message ty

/-- Firing of the auto-dismiss timer scheduled for element id `tid`: the
element it closed over is removed from the document if still present (the
form version guards on `notification.parentElement`, the page version calls
`notification.remove()` unconditionally, which is a no-op for a detached
element — both amount to deleting the element with that id if present), and
the timer is no longer pending. -/
def fireTimer (tid : Nat) (st : NotifState) : NotifState :=
  { dom := st.dom.filter (fun e => !(e.id == tid))
    timers := st.timers.filter (fun t => !(t.1 == tid))
    nextId := st.nextId }

/-- Ids are fresh: every element in the document and every pending timer
target was allocated below the next fresh id.  This holds of the initial
state and is preserved by every operation. -/
def idsFresh (st : NotifState) : Prop :=
  (∀ e ∈ st.dom, e.id < st.nextId) ∧ (∀ t ∈ st.timers, t.1 < st.nextId)

theorem idsFresh_init : idsFresh notifInit := by
  constructor <;> intro x hx <;> simp [notifInit] at hx

theorem mem_removeFirstMatch {cls : String} :
    ∀ {l : List NotifElem} {e : NotifElem}, e ∈ removeFirstMatch cls l → e ∈ l := by
  intro l
  induction l with
  | nil => intro e h; simp [removeFirstMatch] at h
  | cons a t ih =>
      intro e h
      rw [removeFirstMatch] at h
      by_cases hm : selMatch cls a
      · rw [if_pos hm] at h
        exact List.mem_cons_of_mem a h
      · rw [if_neg hm] at h
        rcases List.mem_cons.mp h with rfl | h'
        · exact List.mem_cons_self e t
        · exact List.mem_cons_of_mem a (ih h')

theorem idsFresh_show (base : String) (delay : Nat) (message ty : String)
    (st : NotifState) (h : idsFresh st) :
    idsFresh (showNotificationStep base delay message ty st) := by
  constructor
  · intro e he
    simp only [showNotificationStep] at he
    rcases List.mem_append.mp he with h1 | h1
    · exact Nat.lt_succ_of_lt (h.1 e (mem_removeFirstMatch h1))
    · rcases List.mem_singleton.mp h1 with rfl
      exact Nat.lt_succ_self _
  · intro t ht
    simp only [showNotificationStep] at ht
    rcases List.mem_append.mp ht with h1 | h1
    · exact Nat.lt_succ_of_lt (h.2 t h1)
    · rcases List.mem_singleton.mp h1 with rfl
      exact Nat.lt_succ_self _

theorem idsFresh_fire (tid : Nat) (st : NotifState) (h : idsFresh st) :
    idsFresh (fireTimer tid st) := by
  constructor
  · intro e he
    exact h.1 e (List.mem_filter.mp he).1
  · intro t ht
    exact h.2 t (List.mem_filter.mp ht).1

/-- When at most one element matches the selector, the eviction removes every
match. -/
theorem filter_removeFirstMatch (cls : String) :
    ∀ l : List NotifElem, (l.filter (selMatch cls)).length ≤ 1 →
      (removeFirstMatch cls l).filter (selMatch cls) = [] := by
  intro l
  induction l with
  | nil => intro _; rfl
  | cons a t ih =>
      intro h
      rw [removeFirstMatch]
      by_cases hm : selMatch cls a
      · rw [if_pos hm]
        rw [List.filter_cons_of_pos hm] at h
        have hlen0 : (t.filter (selMatch cls)).length = 0 := by
          simp only [List.length_cons] at h
          omega
        exact List.eq_nil_of_length_eq_zero hlen0
      · rw [if_neg hm, List.filter_cons_of_neg hm]
        rw [List.filter_cons_of_neg hm] at h
        exact ih h

/-- After one `showNotification` call on a document with at most one visible
notification of its class, exactly the freshly created element is visible. -/
theorem filter_showNotificationStep (base : String) (delay : Nat) (m t : String)
    (st : NotifState) (h : (st.dom.filter (selMatch base)).length ≤ 1) :
    (showNotificationStep base delay m t st).dom.filter (selMatch base)
      = [{ id := st.nextId, classes := [base, t], message := m }] := by
  simp only [showNotificationStep]
  rw [List.filter_append, filter_removeFirstMatch base st.dom h]
  rw [List.filter_cons_of_pos (by simp [selMatch])]
  rfl

/-- C8: each `showNotification` version evicts the currently visible
notification of its class before inserting the new one, so starting from at
most one visible notification, after the first call exactly the element of
that call is visible, and after a second call in quick succession exactly the
element of the second call is visible — never two at once.  Instantiating
`base` and `delay` at "form-notification"/5000 and "notification"/3000 gives
the two source versions. -/
theorem showNotification_single_visible (base : String) (delay : Nat) (st : NotifState)
    (m1 t1 m2 t2 : String)
    (h : (st.dom.filter (selMatch base)).length ≤ 1) :
    (showNotificationStep base delay m1 t1 st).dom.filter (selMatch base)
        = [{ id := st.nextId, classes := [base, t1], message := m1 }] ∧
    (showNotificationStep base delay m2 t2
        (showNotificationStep base delay m1 t1 st)).dom.filter (selMatch base)
        = [{ id := st.nextId + 1, classes := [base, t2], message := m2 }] := by
  have h1 := filter_showNotificationStep base delay m1 t1 st h
  refine ⟨h1, ?_⟩
  have hlen : ((showNotificationStep base delay m1 t1 st).dom.filter (selMatch base)).length
      ≤ 1 := by
    rw [h1]
    simp
  have h2 := filter_showNotificationStep base delay m2 t2
    (showNotificationStep base delay m1 t1 st) hlen
  rw [h2]
  rfl

/-- Witness for C8 on the form-feedback version from the empty document: two
quick calls leave exactly the second notification visible. -/
theorem showNotification_single_visible_witness :
    (showNotificationForm "b" "error" (showNotificationForm "a" "success" notifInit)).dom.filter
        (selMatch "form-notification")
      = [{ id := 1, classes := ["form-notification", "error"], message := "b" }] :=
  (showNotification_single_visible "form-notification" 5000 notifInit
    "a" "success" "b" "error" (by decide)).2

/-- Counterexample to C9 as stated: evicting a visible notification does not
clear its still-pending auto-dismiss timer.  After two form-feedback calls
from the empty document the first call's notification has been evicted, yet
its timer (target id 0, 5000 ms) is still pending alongside the new one. -/
theorem showNotification_timer_not_cleared :
    (showNotificationForm "b" "info" (showNotificationForm "a" "info" notifInit)).timers
        = [(0, 5000), (1, 5000)] ∧
    (showNotificationForm "b" "info" (showNotificationForm "a" "info" notifInit)).dom
        = [{ id := 1, classes := ["form-notification", "info"], message := "b" }] := by
  constructor
  · rfl
  · rfl

/-- C9 amended: an evicting `showNotification` call leaves the previous
notification's auto-dismiss timer pending (it is not cleared), but every
auto-dismiss timer only ever removes the element it was scheduled for, so
when the timer of an evicted notification fires, the newly shown notification
remains in the document: no stale timer ever dismisses the new instance. -/
theorem evicted_timer_never_dismisses_new (st : NotifState) (base : String) (delay : Nat)
    (message ty : String) (t : Nat × Nat) (hfresh : idsFresh st) (ht : t ∈ st.timers) :
    t ∈ (showNotificationStep base delay message ty st).timers ∧
    ({ id := st.nextId, classes := [base, ty], message := message } : NotifElem)
        ∈ (showNotificationStep base delay message ty st).dom ∧
    ({ id := st.nextId, classes := [base, ty], message := message } : NotifElem)
        ∈ (fireTimer t.1 (showNotificationStep base delay message ty st)).dom := by
  have htlt : t.1 < st.nextId := hfresh.2 t ht
  have hmemdom : ({ id := st.nextId, classes := [base, ty], message := message } : NotifElem)
      ∈ (showNotificationStep base delay message ty st).dom := by
    simp [showNotificationStep]
  refine ⟨?_, hmemdom, ?_⟩
  · simp only [showNotificationStep]
    exact List.mem_append_left _ ht
  · rw [fireTimer]
    apply List.mem_filter.mpr
    refine ⟨hmemdom, ?_⟩
    simp only [Bool.not_eq_true']
    exact beq_false_of_ne (Nat.ne_of_gt htlt)

/-- Witness for C9 amended: concretely, after showing notification a, its
timer targets id 0; showing notification b evicts a, and when a's stale timer
fires, b (id 1) is still in the document. -/
theorem evicted_timer_never_dismisses_new_witness :
    ({ id := 1, classes := ["form-notification", "info"], message := "b" } : NotifElem)
      ∈ (fireTimer 0 (showNotificationForm "b" "info"
          (showNotificationForm "a" "info" notifInit))).dom :=
  (evicted_timer_never_dismisses_new (showNotificationForm "a" "info" notifInit)
    "form-notification" 5000 "b" "info" (0, 5000)
    (idsFresh_show "form-notification" 5000 "a" "info" notifInit idsFresh_init)
    (by decide)).2.2

end Forms
